import Mathlib

/-
Verification of the sprint report computation and caching pipeline of the
ProfiFlow backend (src/app/services/report_service.py,
src/app/services/yandex_gpt_service.py, src/app/database/repositories/report.py,
src/app/database/repositories/user.py, src/app/schemas/*.py).

Shallow embedding conventions:
  - Python float metrics are modelled as rationals.
  - Python datetime.date is modelled as a count of days, datetime.datetime as a
    count of seconds; the two are distinct types because CPython refuses to
    compare a date with a datetime (TypeError), a fact the embedding models
    explicitly.
  - Async calls are sequential in the source (each awaited in order), so the
    orchestrator is modelled as a pure function threading the store and
    counting the external calls it makes.
  - Fallible code returns Except; a raised Python exception is an error value.
-/

namespace PF

/-- Python datetime.date, as a number of days. -/
structure Date where
  days : Int
deriving DecidableEq, Repr

/-- Python datetime.datetime, as a number of seconds. Kept distinct from Date
because CPython raises TypeError when a date is compared with a datetime. -/
structure DateTime where
  seconds : Int
deriving DecidableEq, Repr

/-- Comparison of two dates, total in Python. -/
def dateLt (a b : Date) : Bool := a.days < b.days

/-- Error kinds raised by the pipeline. Each constructor corresponds to one
family of Python exceptions raised by the source:
notFound and noTracker and permissionDenied are the three ValueError sites in
ReportService; typeError is the Python TypeError from comparing a date with a
datetime or with None; serviceUnavailable is ConnectionError raised by
YandexGPTMLService; validationError is a pydantic ValidationError. -/
inductive Err where
  | notFound
  | noTracker
  | permissionDenied
  | typeError
  | serviceUnavailable
  | validationError
deriving DecidableEq, Repr

/-- Evaluation of the Python expression task.deadline < task.resolved_at where
task.deadline is a datetime.date and task.resolved_at is a datetime.datetime
or None (src/app/schemas/yandex_tracker.py lines 14-15, used at
src/app/services/report_service.py line 332). CPython raises TypeError in both
cases: comparing a date with a datetime raises
TypeError: can t compare datetime.datetime to datetime.date, and comparing a
date with None raises TypeError as well. Hence this comparison never returns a
Bool. -/
def pyLt_deadline_resolved (_d : Date) (_r : Option DateTime) : Except Err Bool :=
  Except.error Err.typeError

/-- TaskStatus from src/app/schemas/yandex_tracker.py lines 4-7. -/
structure TaskStatus where
  id : String
  key : String
  display : String
deriving DecidableEq, Repr

/-- Task from src/app/schemas/yandex_tracker.py lines 9-16. story_points is an
optional int, deadline an optional date, resolved_at an optional datetime. -/
structure Task where
  id : String
  key : String
  summary : String
  story_points : Option Int := none
  deadline : Option Date := none
  resolved_at : Option DateTime := none
  status : TaskStatus
deriving DecidableEq, Repr

/-- Sprint from src/app/schemas/yandex_tracker.py lines 18-22. -/
structure Sprint where
  id : Int
  name : String
  start_date : Date
  end_date : Date
deriving DecidableEq, Repr

/-- SprintStats from src/app/schemas/report.py lines 4-8; all four fields are
Python floats. -/
structure SprintStats where
  total_story_points : ℚ
  total_tasks : ℚ
  deadlines_missed : ℚ
  average_completion_time : ℚ
deriving DecidableEq, Repr

/-- MetricWithComparison from src/app/schemas/team_report.py lines 7-10. -/
structure MetricWithComparison where
  current : ℚ
  previous : Option ℚ := none
  change_percent : Option ℚ := none
deriving DecidableEq, Repr

/-- Modelled from the spec: the module app.schemas.recommendation is not under
src (only importers of it are); section 4.3 of the spec defines
Recommendation = \x7btitle, text\x7d. -/
structure Recommendation where
  title : String
  text : String
deriving DecidableEq, Repr

/-- The boolean value of the Python condition at
src/app/services/report_service.py line 332:
task.deadline and (task.status.key == "done" and task.deadline <
task.resolved_at or task.deadline < datetime.utcnow().date()).
Python operator precedence parses this as
deadline and ((done and deadline < resolved_at) or (deadline < today)); the
comparison deadline < resolved_at is reached exactly when the task has a
deadline and its status key is done, and it raises TypeError (see
pyLt_deadline_resolved). -/
def deadline_missed_check (today : Date) (t : Task) : Except Err Bool :=
  match t.deadline with
  | none => Except.ok false
  | some d =>
    if t.status.key = "done" then
      match pyLt_deadline_resolved d t.resolved_at with
      | Except.error e => Except.error e
      | Except.ok b => if b then Except.ok true else Except.ok (dateLt d today)
    else
      Except.ok (dateLt d today)

/-- Loop body of ReportService._process_tasks
(src/app/services/report_service.py lines 319-345), threading the running
totals. The second component of the result counts the calls to
yandex_tracker_service.get_issue_logged_time made so far (one per task with
status key done, made after the deadline check of the same task, so a task
whose deadline check raises does not fetch its own logged time). lookup is the
logged-time capability; a raised TypeError aborts the loop and is returned
together with the number of logged-time calls already made. -/
def process_tasks_go (lookup : String → ℚ) (today : Date) :
    List Task → ℚ → ℚ → ℚ → ℚ → Nat → Except Err SprintStats × Nat
  | [], sp, n, missed, time, calls =>
    (Except.ok
      { total_story_points := sp
        total_tasks := n
        deadlines_missed := missed
        average_completion_time := if n > 0 then time / n else 0 }, calls)
  | t :: ts, sp, n, missed, time, calls =>
    let sp := sp + ((t.story_points.getD 0 : Int) : ℚ)
    let n := n + 1
    match deadline_missed_check today t with
    | Except.error e => (Except.error e, calls)
    | Except.ok m =>
      let missed := if m then missed + 1 else missed
      if t.status.key = "done" then
        process_tasks_go lookup today ts sp n missed (time + lookup t.id) (calls + 1)
      else
        process_tasks_go lookup today ts sp n missed time calls

/-- ReportService._process_tasks (src/app/services/report_service.py lines
319-345). total_story_points treats a missing (or zero, which Python treats as
falsy with the same result) story_points as 0; average_completion_time divides
the summed logged hours of done tasks by total_tasks, returning 0 when
total_tasks is 0. -/
def process_tasks (lookup : String → ℚ) (today : Date) (tasks : List Task) :
    Except Err SprintStats × Nat :=
  process_tasks_go lookup today tasks 0 0 0 0 0

/-- ReportService._calculate_percent_change
(src/app/services/report_service.py lines 161-169). -/
def calculate_percent_change (current previous : ℚ) : ℚ :=
  if previous = 0 then (if current > 0 then 100 else 0)
  else ((current - previous) / previous) * 100

/-- ReportService._create_metric_comparison
(src/app/services/report_service.py lines 171-181). -/
def create_metric_comparison (current : ℚ) (previous : Option ℚ) :
    MetricWithComparison :=
  match previous with
  | none => { current := current }
  | some p =>
    { current := current
      previous := some p
      change_percent := some (calculate_percent_change current p) }

/-- SprintReport response schema from src/app/schemas/sprint_report.py lines
7-18. activity_analysis is declared Optional there, but every value the
service ever stores or returns in it is the string produced by the LLM
(TextResponse.text is a required str), so it is modelled as String;
recommendations is likewise always the (possibly empty) list held by the
persisted row or produced by the LLM. -/
structure SprintReport where
  user_id : Int
  employee_name : String
  sprint_name : String
  sprint_start_date : Date
  sprint_end_date : Date
  story_points_closed : MetricWithComparison
  tasks_completed : MetricWithComparison
  deadlines_missed : MetricWithComparison
  average_task_completion_time : MetricWithComparison
  activity_analysis : String
  recommendations : List Recommendation
deriving DecidableEq, Repr

/-- SprintReportDB row from src/app/database/models/report.py lines 16-41.
The autoincrement id column is omitted: no code under verification reads it.
tasks_completed and deadlines_missed are Integer columns but receive the float
fields of SprintStats (the repository stores metric.current); they are
modelled as rationals, which preserves the stored and reloaded values.
Recommendations are stored as JSON dumps and reloaded into Recommendation
values; the round trip is content preserving, so the column is modelled as the
list itself. -/
structure SprintReportDB where
  user_id : Int
  tracker_id : Int
  sprint_id : Int
  sprint_name : String
  sprint_start_date : Date
  sprint_end_date : Date
  story_points_closed : ℚ
  tasks_completed : ℚ
  deadlines_missed : ℚ
  average_task_completion_time : ℚ
  activity_analysis : String
  recommendations : List Recommendation
deriving DecidableEq, Repr

/-- The sprint_reports table, as the list of its rows in insertion order. -/
abbrev Store := List SprintReportDB

/-- Key equality used by every query of ReportRepository
(src/app/database/repositories/report.py): user_id, tracker_id, sprint_id. -/
def same_report_key (r : SprintReportDB) (user_id tracker_id sprint_id : Int) : Bool :=
  r.user_id = user_id ∧ r.tracker_id = tracker_id ∧ r.sprint_id = sprint_id

/-- ReportRepository.get_sprint_report_by_id
(src/app/database/repositories/report.py lines 56-63): select by the natural
key, scalars().first(). The store keeps at most one row per key (the only
writer is the upsert), so first() is the first matching row in order. -/
def get_sprint_report_by_id (s : Store) (user_id tracker_id sprint_id : Int) :
    Option SprintReportDB :=
  s.find? (fun r => same_report_key r user_id tracker_id sprint_id)

/-- ReportRepository.get_previous_sprint_report
(src/app/database/repositories/report.py lines 46-54): rows of the same user
and tracker with sprint_start_date strictly before the given date, ordered by
sprint_start_date descending, first(). Modelled as the row with the maximal
start date among the matches, the earliest inserted row winning ties. -/
def get_previous_sprint_report (s : Store) (user_id tracker_id : Int)
    (sprint_start_date : Date) : Option SprintReportDB :=
  (s.filter (fun r => r.user_id = user_id ∧ r.tracker_id = tracker_id ∧
      r.sprint_start_date.days < sprint_start_date.days)).foldl
    (fun acc r =>
      match acc with
      | none => some r
      | some b => if b.sprint_start_date.days < r.sprint_start_date.days then some r else some b)
    none

/-- ReportRepository.save_or_update_sprint_report
(src/app/database/repositories/report.py lines 10-44): if a row with the key
exists, overwrite its mutable fields in place, else insert a new row. The key
is unique in the store, so updating every matching row updates the one row. -/
def save_or_update_sprint_report (s : Store) (row : SprintReportDB) : Store :=
  if s.any (fun r => same_report_key r row.user_id row.tracker_id row.sprint_id) then
    s.map (fun r =>
      if same_report_key r row.user_id row.tracker_id row.sprint_id then
        { r with
          story_points_closed := row.story_points_closed
          tasks_completed := row.tasks_completed
          deadlines_missed := row.deadlines_missed
          average_task_completion_time := row.average_task_completion_time
          activity_analysis := row.activity_analysis
          recommendations := row.recommendations }
      else r)
  else s ++ [row]

/-- User row, restricted to the fields ReportService reads
(src/app/database/user.py): id, login, display_name. -/
structure User where
  id : Int
  login : String
  display_name : String
deriving DecidableEq, Repr

/-- SprintStats reconstructed from a stored row, as built at
src/app/services/report_service.py lines 72-78 and 104-110. -/
def stats_of_report (r : SprintReportDB) : SprintStats :=
  { total_story_points := r.story_points_closed
    total_tasks := r.tasks_completed
    deadlines_missed := r.deadlines_missed
    average_completion_time := r.average_task_completion_time }

/-- Rating item returned by the team rating LLM call, TeamRatingItem from
src/app/services/yandex_gpt_service.py lines 34-37. -/
structure TeamRatingItem where
  employee_id : String
  rating : Int
  rating_explanation : String
deriving DecidableEq, Repr

/-- One entry of the employee_stats (or prev_employee_stats) list assembled by
ReportService.generate_team_sprint_report
(src/app/services/report_service.py lines 246-268): the employee identity as a
string plus the four metric dicts. -/
structure EmployeeStatsEntry where
  employee_id : String
  employee_name : String
  story_points_closed : MetricWithComparison
  tasks_completed : MetricWithComparison
  deadlines_missed : MetricWithComparison
  average_task_completion_time : MetricWithComparison
deriving DecidableEq, Repr

/-- Deterministic environment of one orchestrator run: the external
collaborators of ReportService, each modelled as a function of the arguments
the service passes. get_sprint returns none where the gateway reports the
sprint missing. tracker_of is UserRepository.get_user_current_tracker
(src/app/database/repositories/user.py lines 43-59), giving the current
tracker id and the role string. The two LLM fields fix the outcome of the two
structured calls made by generate_sprint_report; an error value is a
ConnectionError raised by the gateway. rate_team fixes the outcome of
rate_team_performance as a function of the employee stats blocks serialized
into its prompt. -/
structure Env where
  get_sprint : Int → Option Sprint
  tracker_of : Int → Option (Int × String)
  get_sprint_tasks : Int → String → List Task
  get_issue_logged_time : String → ℚ
  today : Date
  analyze_employee_activity : Except Unit String
  generate_employee_recommendations : Except Unit (List Recommendation)
  get_sprints : List Sprint
  users_for_tracker : Int → List User
  rate_team : List EmployeeStatsEntry → Option (List EmployeeStatsEntry) →
    Except Unit (List TeamRatingItem)

/-- Counts of external gateway calls made during one run. -/
structure Calls where
  get_sprint : Nat := 0
  get_sprints : Nat := 0
  get_sprint_tasks : Nat := 0
  get_issue_logged_time : Nat := 0
  llm : Nat := 0
deriving DecidableEq, Repr

/-- Pointwise sum of call counts. -/
def Calls.add (a b : Calls) : Calls :=
  { get_sprint := a.get_sprint + b.get_sprint
    get_sprints := a.get_sprints + b.get_sprints
    get_sprint_tasks := a.get_sprint_tasks + b.get_sprint_tasks
    get_issue_logged_time := a.get_issue_logged_time + b.get_issue_logged_time
    llm := a.llm + b.llm }

/-- Outcome of one generate_sprint_report run: the returned report or raised
exception, the store after the run, and the external calls made. -/
structure GenResult where
  result : Except Err SprintReport
  store : Store
  calls : Calls
deriving Repr

/-- The four metric comparisons of an individual report. -/
structure FourMetrics where
  story_points_closed : MetricWithComparison
  tasks_completed : MetricWithComparison
  deadlines_missed : MetricWithComparison
  average_task_completion_time : MetricWithComparison
deriving DecidableEq, Repr

/-- The comparison building step shared by the two branches of
generate_sprint_report (src/app/services/report_service.py lines 69-96 and
101-123): look up the most recent previous report of the user and tracker
with a start date strictly before the given one, rebuild its SprintStats, and
feed each pair of current and previous values to _create_metric_comparison. -/
def build_comparisons (store : Store) (user_id tracker_id : Int) (start : Date)
    (stats : SprintStats) : FourMetrics :=
  let prev_stats := (get_previous_sprint_report store user_id tracker_id
    start).map stats_of_report
  { story_points_closed := create_metric_comparison stats.total_story_points
      (prev_stats.map (fun s => s.total_story_points))
    tasks_completed := create_metric_comparison stats.total_tasks
      (prev_stats.map (fun s => s.total_tasks))
    deadlines_missed := create_metric_comparison stats.deadlines_missed
      (prev_stats.map (fun s => s.deadlines_missed))
    average_task_completion_time := create_metric_comparison
      stats.average_completion_time
      (prev_stats.map (fun s => s.average_completion_time)) }

/-- The cache hit branch of ReportService.generate_sprint_report
(src/app/services/report_service.py lines 67-99): the stored report is
returned with each comparison metric recomputed from the stored columns
against the previous stored report of the same user and tracker, looked up by
the stored sprint start date. -/
def build_report_from_existing (store : Store) (user : User) (tracker_id : Int)
    (existing : SprintReportDB) : SprintReport :=
  let m := build_comparisons store user.id tracker_id existing.sprint_start_date
    (stats_of_report existing)
  { user_id := existing.user_id
    employee_name := user.display_name
    sprint_name := existing.sprint_name
    sprint_start_date := existing.sprint_start_date
    sprint_end_date := existing.sprint_end_date
    story_points_closed := m.story_points_closed
    tasks_completed := m.tasks_completed
    deadlines_missed := m.deadlines_missed
    average_task_completion_time := m.average_task_completion_time
    activity_analysis := existing.activity_analysis
    recommendations := existing.recommendations }

/-- The row persisted by the cache miss path
(src/app/services/report_service.py lines 133-146): the repository stores the
current value of each comparison metric plus the sprint identity and the two
LLM products. -/
def fresh_row (user : User) (tracker_id sprint_id : Int) (sprint : Sprint)
    (m : FourMetrics) (activity : String) (recs : List Recommendation) :
    SprintReportDB :=
  { user_id := user.id
    tracker_id := tracker_id
    sprint_id := sprint_id
    sprint_name := sprint.name
    sprint_start_date := sprint.start_date
    sprint_end_date := sprint.end_date
    story_points_closed := m.story_points_closed.current
    tasks_completed := m.tasks_completed.current
    deadlines_missed := m.deadlines_missed.current
    average_task_completion_time := m.average_task_completion_time.current
    activity_analysis := activity
    recommendations := recs }

/-- The report returned by the cache miss path
(src/app/services/report_service.py lines 147-159). -/
def fresh_report (user : User) (sprint : Sprint) (m : FourMetrics)
    (activity : String) (recs : List Recommendation) : SprintReport :=
  { user_id := user.id
    employee_name := user.display_name
    sprint_name := sprint.name
    sprint_start_date := sprint.start_date
    sprint_end_date := sprint.end_date
    story_points_closed := m.story_points_closed
    tasks_completed := m.tasks_completed
    deadlines_missed := m.deadlines_missed
    average_task_completion_time := m.average_task_completion_time
    activity_analysis := activity
    recommendations := recs }

/-- The cache miss tail of ReportService.generate_sprint_report
(src/app/services/report_service.py lines 101-159): look up the previous
report by the start date of the fetched sprint, build the four comparisons,
run the two LLM calls inside one try block (a failure of the first call
prevents the second, the original ConnectionError is re-raised, and nothing
is persisted), then upsert the new row and return the report. calls holds the
counts accumulated by the preceding steps, with no LLM call yet. -/
def fresh_generate (env : Env) (store : Store) (user : User) (sprint_id : Int)
    (sprint : Sprint) (tracker_id : Int) (sprint_stats : SprintStats)
    (calls : Calls) : GenResult :=
  let m := build_comparisons store user.id tracker_id sprint.start_date sprint_stats
  match env.analyze_employee_activity with
  | Except.error _ =>
    ⟨Except.error Err.serviceUnavailable, store, { calls with llm := calls.llm + 1 }⟩
  | Except.ok activity_analysis =>
    match env.generate_employee_recommendations with
    | Except.error _ =>
      ⟨Except.error Err.serviceUnavailable, store, { calls with llm := calls.llm + 2 }⟩
    | Except.ok recommendations =>
      ⟨Except.ok (fresh_report user sprint m activity_analysis recommendations),
        save_or_update_sprint_report store
          (fresh_row user tracker_id sprint_id sprint m activity_analysis recommendations),
        { calls with llm := calls.llm + 2 }⟩

/-- ReportService.generate_sprint_report
(src/app/services/report_service.py lines 41-159). Step order as in the
source: fetch the sprint (ValueError if absent), resolve the current tracker
of the user (ValueError if none), fetch the tasks of the user in the sprint,
aggregate the stats (a TypeError from the deadline check propagates), and only
then consult the report cache; on a hit return the stored report rebuilt
against its own previous sibling, on a miss run the fresh path. -/
def generate_sprint_report (env : Env) (store : Store) (user : User)
    (sprint_id : Int) : GenResult :=
  match env.get_sprint sprint_id with
  | none => ⟨Except.error Err.notFound, store, { get_sprint := 1 }⟩
  | some sprint =>
    match env.tracker_of user.id with
    | none => ⟨Except.error Err.noTracker, store, { get_sprint := 1 }⟩
    | some (tracker_id, _role) =>
      let tasks := env.get_sprint_tasks sprint_id user.login
      match process_tasks env.get_issue_logged_time env.today tasks with
      | (Except.error e, lc) =>
        ⟨Except.error e, store,
          { get_sprint := 1, get_sprint_tasks := 1, get_issue_logged_time := lc }⟩
      | (Except.ok sprint_stats, lc) =>
        let calls : Calls :=
          { get_sprint := 1, get_sprint_tasks := 1, get_issue_logged_time := lc }
        match get_sprint_report_by_id store user.id tracker_id sprint_id with
        | some existing =>
          ⟨Except.ok (build_report_from_existing store user tracker_id existing),
            store, calls⟩
        | none =>
          fresh_generate env store user sprint_id sprint tracker_id sprint_stats calls

/-- EmployeeSprintStats from src/app/schemas/team_report.py lines 12-20.
The rating field carries Field(ge=1, le=5); the validation itself is enforced
where pydantic parses LLM output (see parse_team_rating_item below), and every
value the orchestrator writes here is either such a parsed rating or the
literal 3. -/
structure EmployeeSprintStats where
  employee_id : String
  employee_name : String
  story_points_closed : MetricWithComparison
  tasks_completed : MetricWithComparison
  deadlines_missed : MetricWithComparison
  average_task_completion_time : MetricWithComparison
  rating : Int
  rating_explanation : String
deriving DecidableEq, Repr

/-- TeamSprintReportDB row from src/app/database/models/team_report.py; the
employee_stats JSON column holds the dumps of EmployeeSprintStats values and
the round trip is content preserving, so it is modelled as the typed list. -/
structure TeamSprintReportDB where
  tracker_id : Int
  sprint_id : Int
  sprint_start_date : Date
  sprint_end_date : Date
  employee_stats : List EmployeeSprintStats
deriving DecidableEq, Repr

/-- The team_sprint_reports table as the list of its rows. -/
abbrev TeamStore := List TeamSprintReportDB

/-- TeamReportRepository.get_team_sprint_report_by_id
(src/app/database/repositories/report.py lines 69-75). -/
def get_team_sprint_report_by_id (s : TeamStore) (tracker_id sprint_id : Int) :
    Option TeamSprintReportDB :=
  s.find? (fun r => r.tracker_id = tracker_id ∧ r.sprint_id = sprint_id)

/-- TeamReportRepository.save_or_update_team_sprint_report
(src/app/database/repositories/report.py lines 77-99). -/
def save_or_update_team_sprint_report (s : TeamStore) (row : TeamSprintReportDB) :
    TeamStore :=
  if s.any (fun r => r.tracker_id = row.tracker_id ∧ r.sprint_id = row.sprint_id) then
    s.map (fun r =>
      if r.tracker_id = row.tracker_id ∧ r.sprint_id = row.sprint_id then
        { r with
          sprint_start_date := row.sprint_start_date
          sprint_end_date := row.sprint_end_date
          employee_stats := row.employee_stats }
      else r)
  else s ++ [row]

/-- TeamSprintReport response schema from src/app/schemas/team_report.py lines
22-32, with the fields it actually declares. -/
structure TeamReportResponse where
  sprint_number : Int
  sprint_start_date : DateTime
  sprint_end_date : DateTime
  total_story_points_closed : Int
  total_tasks_completed : Int
  total_deadlines_missed : Int
  avg_task_completion_time : ℚ
  activity_analysis : String
  recommendations : List Recommendation
  employee_stats : List EmployeeSprintStats
deriving DecidableEq, Repr

/-- Pydantic construction of schemas.team_report.TeamSprintReport from the
keyword arguments the service passes at src/app/services/report_service.py
lines 210-215 and 312-317: sprint_id, sprint_start_date, sprint_end_date,
employee_stats. Pydantic v2 ignores the unknown keyword sprint_id, but the
schema (src/app/schemas/team_report.py lines 22-32) requires sprint_number,
total_story_points_closed, total_tasks_completed, total_deadlines_missed,
avg_task_completion_time, activity_analysis and recommendations, none of which
is passed and none of which has a default, so every such construction raises
ValidationError. -/
def teamSprintReport_validate (_sprint_id : Int) (_start _end_ : Date)
    (_employee_stats : List EmployeeSprintStats) :
    Except Err TeamReportResponse :=
  Except.error Err.validationError

/-- Stable ascending insertion by sprint start date, the order produced by
sorted(sprints_objs, key=lambda s: s.start_date) at
src/app/services/report_service.py line 229. -/
def insert_by_start (s : Sprint) : List Sprint → List Sprint
  | [] => [s]
  | x :: xs =>
    if s.start_date.days < x.start_date.days then s :: x :: xs
    else x :: insert_by_start s xs

/-- Stable sort by sprint start date (Python sorted is stable; insertion after
equal keys preserves the original order). -/
def sort_by_start : List Sprint → List Sprint
  | [] => []
  | x :: xs => insert_by_start x (sort_by_start xs)

/-- The loop at src/app/services/report_service.py lines 230-233: walk the
sorted sprints with their predecessor, stop at the first element with the
requested id and a positive index, and return its predecessor. A match at
index 0 does not stop the loop, exactly as in the source where the condition
requires idx > 0. -/
def prev_sprint_scan (sprint_id : Int) : List Sprint → Option Sprint → Option Sprint
  | [], _ => none
  | s :: rest, prev =>
    if s.id = sprint_id ∧ prev.isSome then prev
    else prev_sprint_scan sprint_id rest (some s)

/-- Previous sprint determination of generate_team_sprint_report
(src/app/services/report_service.py lines 226-233). -/
def find_prev_sprint (sprints : List Sprint) (sprint_id : Int) : Option Sprint :=
  prev_sprint_scan sprint_id (sort_by_start sprints) none

/-- The employee_stats entry appended for one user at
src/app/services/report_service.py lines 246-253: the metrics of the generated
individual report, keyed by str(user.id). -/
def entry_of_report (user : User) (rep : SprintReport) : EmployeeStatsEntry :=
  { employee_id := toString user.id
    employee_name := user.display_name
    story_points_closed := rep.story_points_closed
    tasks_completed := rep.tasks_completed
    deadlines_missed := rep.deadlines_missed
    average_task_completion_time := rep.average_task_completion_time }

/-- The prev_employee_stats entry appended for one user at
src/app/services/report_service.py lines 260-268: each metric dict holds only
the current key, taken from the stored previous report. -/
def prev_entry_of_row (user : User) (r : SprintReportDB) : EmployeeStatsEntry :=
  { employee_id := toString user.id
    employee_name := user.display_name
    story_points_closed := { current := r.story_points_closed }
    tasks_completed := { current := r.tasks_completed }
    deadlines_missed := { current := r.deadlines_missed }
    average_task_completion_time := { current := r.average_task_completion_time } }

/-- The per-user loop of generate_team_sprint_report
(src/app/services/report_service.py lines 236-268): for each user run
generate_sprint_report (threading the store, since each run may persist a new
row), collect the stats entry, and when a previous sprint exists look up the
stored previous report of the user and collect its entry. A raised exception
from a sub-generation propagates and aborts the loop. -/
def team_collect (env : Env) (sprint_id tracker_id : Int)
    (prev_sprint : Option Sprint) :
    List User → Store → Calls →
    Except Err (List EmployeeStatsEntry × List EmployeeStatsEntry) × Store × Calls
  | [], store, calls => (Except.ok ([], []), store, calls)
  | u :: us, store, calls =>
    let r := generate_sprint_report env store u sprint_id
    let calls := calls.add r.calls
    match r.result with
    | Except.error e => (Except.error e, r.store, calls)
    | Except.ok rep =>
      let prev_row :=
        match prev_sprint with
        | none => none
        | some p => get_sprint_report_by_id r.store u.id tracker_id p.id
      match team_collect env sprint_id tracker_id prev_sprint us r.store calls with
      | (Except.ok (es, ps), store', calls') =>
        (Except.ok (entry_of_report u rep :: es,
          match prev_row with
          | some pr => prev_entry_of_row u pr :: ps
          | none => ps), store', calls')
      | (Except.error e, store', calls') => (Except.error e, store', calls')

/-- The rating lookup dict built at src/app/services/report_service.py line
280: a Python dict comprehension over the LLM items keyed by employee_id, in
which a later item overwrites an earlier one with the same key, hence the
lookup finds the last matching item. -/
def rating_map_get (llm_result : List TeamRatingItem) (employee_id : String) :
    Option TeamRatingItem :=
  llm_result.reverse.find? (fun r => r.employee_id = employee_id)

/-- The final assembly loop of generate_team_sprint_report
(src/app/services/report_service.py lines 286-302): every collected employee
gets an EmployeeSprintStats entry; the rating and its explanation come from
the rating map when the employee id is present there, and default to 3 and the
fixed fallback string otherwise. -/
def build_employee_stats_final (employee_stats : List EmployeeStatsEntry)
    (llm_result : List TeamRatingItem) : List EmployeeSprintStats :=
  employee_stats.map (fun emp =>
    { employee_id := emp.employee_id
      employee_name := emp.employee_name
      story_points_closed := emp.story_points_closed
      tasks_completed := emp.tasks_completed
      deadlines_missed := emp.deadlines_missed
      average_task_completion_time := emp.average_task_completion_time
      rating :=
        match rating_map_get llm_result emp.employee_id with
        | some r => r.rating
        | none => 3
      rating_explanation :=
        match rating_map_get llm_result emp.employee_id with
        | some r => r.rating_explanation
        | none => "Ошибка AI при оценке производительности" })

/-- Outcome of one generate_team_sprint_report run. -/
structure TeamGenResult where
  result : Except Err TeamReportResponse
  store : Store
  team_store : TeamStore
  calls : Calls
deriving Repr

/-- ReportService.generate_team_sprint_report
(src/app/services/report_service.py lines 183-317). Step order as in the
source: resolve the current tracker and role of the requester (ValueError if
none), raise ValueError for any role other than manager, consult the team
report cache, then fetch the users of the tracker, the sprint (ValueError if
absent), and the sprint list for the previous sprint determination; run the
per-user loop, make the single batched team rating LLM call (a failure is
re-raised), assemble the final employee stats with rating defaulting, persist
the team report, and finally construct the TeamSprintReport response, which
raises ValidationError (see teamSprintReport_validate) after the persist. The
cache hit branch constructs the same response schema from the stored row and
therefore also raises ValidationError, after performing no gateway call. -/
def generate_team_sprint_report (env : Env) (store : Store)
    (team_store : TeamStore) (current_user_id : Int) (sprint_id : Int) :
    TeamGenResult :=
  match env.tracker_of current_user_id with
  | none => ⟨Except.error Err.noTracker, store, team_store, {}⟩
  | some (tracker_id, role) =>
    if role = "manager" then
      match get_team_sprint_report_by_id team_store tracker_id sprint_id with
      | some existing =>
        ⟨teamSprintReport_validate existing.sprint_id existing.sprint_start_date
          existing.sprint_end_date existing.employee_stats, store, team_store, {}⟩
      | none =>
        let users := env.users_for_tracker tracker_id
        match env.get_sprint sprint_id with
        | none => ⟨Except.error Err.notFound, store, team_store, { get_sprint := 1 }⟩
        | some sprint =>
          let prev_sprint := find_prev_sprint env.get_sprints sprint_id
          let calls0 : Calls := { get_sprint := 1, get_sprints := 1 }
          match team_collect env sprint_id tracker_id prev_sprint users store calls0 with
          | (Except.error e, store', calls') =>
            ⟨Except.error e, store', team_store, calls'⟩
          | (Except.ok (employee_stats, prev_employee_stats), store', calls') =>
            match env.rate_team employee_stats
              (if prev_employee_stats.isEmpty then none else some prev_employee_stats) with
            | Except.error _ =>
              ⟨Except.error Err.serviceUnavailable, store', team_store,
                { calls' with llm := calls'.llm + 1 }⟩
            | Except.ok llm_result =>
              let employee_stats_final := build_employee_stats_final employee_stats llm_result
              let team_store' := save_or_update_team_sprint_report team_store
                { tracker_id := tracker_id
                  sprint_id := sprint_id
                  sprint_start_date := sprint.start_date
                  sprint_end_date := sprint.end_date
                  employee_stats := employee_stats_final }
              ⟨teamSprintReport_validate sprint_id sprint.start_date sprint.end_date
                employee_stats_final, store', team_store',
                { calls' with llm := calls'.llm + 1 }⟩
    else
      ⟨Except.error Err.permissionDenied, store, team_store, {}⟩

/-- JSON values, as far as the structured LLM responses need them; numbers are
integers since the only numeric field of the schemas under scrutiny is the
integer rating. -/
inductive Json where
  | null
  | bool (b : Bool)
  | num (n : Int)
  | str (s : String)
  | arr (items : List Json)
  | obj (fields : List (String × Json))

/-- Field lookup in a JSON object, the last duplicate key winning as in
json.loads. -/
def json_lookup (fields : List (String × Json)) (k : String) : Option Json :=
  (fields.reverse.find? (fun f => f.1 = k)).map (fun f => f.2)

/-- Pydantic validation of one TeamRatingItem
(src/app/services/yandex_gpt_service.py lines 34-37): employee_id a required
str, rating a required int constrained by Field(ge=1, le=5), and
rating_explanation a required str. A rating outside the range, a missing
field, or a mistyped field each fail validation; nothing is clamped or
defaulted. String coercion of numeric literals, which pydantic would also
reject for the two str fields, and int coercion of numeric strings are
irrelevant to the properties proved and are modelled as mismatches. -/
def parse_team_rating_item (j : Json) : Except String TeamRatingItem :=
  match j with
  | Json.obj fields =>
    match json_lookup fields "employee_id", json_lookup fields "rating",
        json_lookup fields "rating_explanation" with
    | some (Json.str eid), some (Json.num r), some (Json.str expl) =>
      if 1 ≤ r ∧ r ≤ 5 then
        Except.ok { employee_id := eid, rating := r, rating_explanation := expl }
      else Except.error "rating out of range 1..5"
    | _, _, _ => Except.error "missing or mistyped field"
  | _ => Except.error "input is not an object"

/-- Validation of every element of the ratings array. -/
def parse_team_rating_items : List Json → Except String (List TeamRatingItem)
  | [] => Except.ok []
  | j :: js =>
    match parse_team_rating_item j with
    | Except.error e => Except.error e
    | Except.ok item =>
      match parse_team_rating_items js with
      | Except.error e => Except.error e
      | Except.ok items => Except.ok (item :: items)

/-- Pydantic validation of TeamRatingList
(src/app/services/yandex_gpt_service.py lines 39-40): an object with a
required ratings field holding a list of TeamRatingItem. -/
def parse_team_rating_list (j : Json) : Except String (List TeamRatingItem) :=
  match j with
  | Json.obj fields =>
    match json_lookup fields "ratings" with
    | some (Json.arr items) => parse_team_rating_items items
    | _ => Except.error "missing or mistyped ratings field"
  | _ => Except.error "input is not an object"

/-- The text of one alternative of the SDK result: none models a missing or
empty (falsy) text, notJson a non-empty text that json.loads rejects, json a
text that parses to the given JSON value. -/
inductive Payload where
  | notJson (raw : String)
  | json (j : Json)

/-- One element of result.alternatives: either not an Alternative instance at
all, or an Alternative with the given text. -/
inductive SdkAlternative where
  | notAlternative
  | alternative (text : Option Payload)

/-- The outcome of awaiting configured_model.run(messages)
(src/app/services/yandex_gpt_service.py line 97): an exception from the SDK or
transport, a value that is not a GPTModelResult instance, or a GPTModelResult
carrying its alternatives. -/
inductive SdkResult where
  | sdkException (msg : String)
  | notGPTModelResult
  | gptResult (alternatives : List SdkAlternative)

/-- The single failure kind surfaced by the LLM service: every failure path of
_call_llm_structured raises ConnectionError
(src/app/services/yandex_gpt_service.py lines 100-140). The message holds the
static prefix of the corresponding f-string. -/
inductive LLMError where
  | connectionError (msg : String)
deriving DecidableEq, Repr

/-- YandexGPTMLService._call_llm_structured
(src/app/services/yandex_gpt_service.py lines 77-140), instantiated at the
TeamRatingList response model. Branches in source order: an exception from the
SDK run is caught by the generic handler and re-raised as ConnectionError; a
result that is not a GPTModelResult, an empty alternatives list, and an
invalid or empty first alternative each raise ConnectionError directly; a text
that is not valid JSON raises ConnectionError from the JSONDecodeError
handler; a JSON that fails pydantic validation raises ConnectionError from the
ValidationError handler; only a validated response is returned. -/
def call_llm_structured_team (result : SdkResult) :
    Except LLMError (List TeamRatingItem) :=
  match result with
  | SdkResult.sdkException msg =>
    Except.error (LLMError.connectionError
      ("Failed async call via Yandex GPT ML SDK: " ++ msg))
  | SdkResult.notGPTModelResult =>
    Except.error (LLMError.connectionError
      "Received unexpected response type from SDK. Expected GPTModelResult")
  | SdkResult.gptResult alternatives =>
    match alternatives with
    | [] =>
      Except.error (LLMError.connectionError
        "Received no alternatives in GPTModelResult.")
    | alt :: _ =>
      match alt with
      | SdkAlternative.notAlternative =>
        Except.error (LLMError.connectionError
          "Invalid or empty alternative in GPTModelResult.")
      | SdkAlternative.alternative none =>
        Except.error (LLMError.connectionError
          "Invalid or empty alternative in GPTModelResult.")
      | SdkAlternative.alternative (some (Payload.notJson _)) =>
        Except.error (LLMError.connectionError
          "LLM response text was not valid JSON")
      | SdkAlternative.alternative (some (Payload.json j)) =>
        match parse_team_rating_list j with
        | Except.error _ =>
          Except.error (LLMError.connectionError
            "LLM response failed validation for TeamRatingList")
        | Except.ok v => Except.ok v

/-! Specification-side measures used to state properties of the task
aggregation. -/

/-- Sum of the logged hours of the tasks with status key done, in list
order. -/
def done_logged_sum (lookup : String → ℚ) : List Task → ℚ
  | [] => 0
  | t :: ts =>
    (if t.status.key = "done" then lookup t.id else 0) + done_logged_sum lookup ts

/-- Number of tasks with status key done. -/
def done_count : List Task → Nat
  | [] => 0
  | t :: ts => (if t.status.key = "done" then 1 else 0) + done_count ts

/-! Concrete instances used by witnesses and counterexamples. Dates are day
counts (19797 is 2024-03-15); datetimes are second counts. -/

/-- A done task whose resolution timestamp falls on the very day of its
deadline: the boundary case of the strict comparison. -/
def task_resolved_on_deadline : Task :=
  { id := "T-100", key := "PF-100", summary := "boundary task"
    story_points := some 5
    deadline := some ⟨19797⟩
    resolved_at := some ⟨19797 * 86400 + 43200⟩
    status := { id := "1", key := "done", display := "Done" } }

/-- A done task with a deadline and no resolution timestamp. -/
def task_done_unresolved : Task :=
  { id := "T-101", key := "PF-101", summary := "done with deadline, resolved_at missing"
    story_points := some 3
    deadline := some ⟨19790⟩
    resolved_at := none
    status := { id := "1", key := "done", display := "Done" } }

/-- A done task resolved well after its deadline. -/
def task_done_late : Task :=
  { id := "T-102", key := "PF-102", summary := "late done task"
    story_points := some 2
    deadline := some ⟨19780⟩
    resolved_at := some ⟨19795 * 86400⟩
    status := { id := "1", key := "done", display := "Done" } }

/-- A done task without deadline. -/
def task_done_plain : Task :=
  { id := "T-103", key := "PF-103", summary := "done task"
    story_points := some 5
    status := { id := "1", key := "done", display := "Done" } }

/-- An open task without deadline. -/
def task_open_plain : Task :=
  { id := "T-104", key := "PF-104", summary := "open task"
    story_points := some 2
    status := { id := "2", key := "open", display := "Open" } }

/-- A two-task list on which the aggregation completes: one done task without
deadline, one open task. -/
def c7_tasks : List Task := [task_done_plain, task_open_plain]

/-- A JSON rating item that validates. -/
def c4_rating_json : Json :=
  Json.obj [("employee_id", Json.str "7"), ("rating", Json.num 4),
    ("rating_explanation", Json.str "solid sprint")]

/-- The validated value of c4_rating_json. -/
def c4_rating_item : TeamRatingItem :=
  { employee_id := "7", rating := 4, rating_explanation := "solid sprint" }

/-- A JSON rating item with a rating outside [1,5]. -/
def c4_bad_fields : List (String × Json) :=
  [("employee_id", Json.str "7"), ("rating", Json.num 9),
    ("rating_explanation", Json.str "overflowing praise")]

/-- A concrete sprint. -/
def sprint1 : Sprint :=
  { id := 1, name := "Sprint 1", start_date := ⟨19795⟩, end_date := ⟨19809⟩ }

/-- A concrete employee user. -/
def user7 : User := { id := 7, login := "u7", display_name := "User Seven" }

/-- A concrete recommendation. -/
def rec1 : Recommendation :=
  { title := "Focus", text := "Limit work in progress" }

/-- A concrete environment: sprint 1 exists, user 9 is a manager and user 7 an
employee of tracker 5, the sprint holds one done task of user 7 with 4 logged
hours, and every LLM call succeeds (the team rating call returns an empty
ratings list). -/
def env_base : Env :=
  { get_sprint := fun i => if i = 1 then some sprint1 else none
    tracker_of := fun u =>
      if u = 9 then some (5, "manager")
      else if u = 7 then some (5, "employee") else none
    get_sprint_tasks := fun _ _ => [task_done_plain]
    get_issue_logged_time := fun _ => 4
    today := ⟨19800⟩
    analyze_employee_activity := Except.ok "steady sprint"
    generate_employee_recommendations := Except.ok [rec1]
    get_sprints := [sprint1]
    users_for_tracker := fun t => if t = 5 then [user7] else []
    rate_team := fun _ _ => Except.ok [] }

/-- env_base with a failing activity analysis call. -/
def env_fail : Env :=
  { env_base with analyze_employee_activity := Except.error () }

/-- A stored individual report for user 7, tracker 5, sprint 1. -/
def row_cached : SprintReportDB :=
  { user_id := 7, tracker_id := 5, sprint_id := 1, sprint_name := "Sprint 1"
    sprint_start_date := ⟨19795⟩, sprint_end_date := ⟨19809⟩
    story_points_closed := 5, tasks_completed := 1, deadlines_missed := 0
    average_task_completion_time := 4, activity_analysis := "steady sprint"
    recommendations := [rec1] }

/-- The team report row that env_base leads generate_team_sprint_report to
persist for tracker 5 and sprint 1: the single employee is absent from the
empty LLM rating response, so the entry carries the default rating 3 and the
fixed fallback explanation. -/
def team_row_expected : TeamSprintReportDB :=
  { tracker_id := 5, sprint_id := 1
    sprint_start_date := ⟨19795⟩, sprint_end_date := ⟨19809⟩
    employee_stats :=
      [{ employee_id := "7", employee_name := "User Seven"
         story_points_closed := { current := 5 }
         tasks_completed := { current := 1 }
         deadlines_missed := { current := 0 }
         average_task_completion_time := { current := 4 }
         rating := 3
         rating_explanation := "Ошибка AI при оценке производительности" }] }

/-- The report env_base produces for user 7 and sprint 1 from an empty store:
no previous report exists, so every comparison carries no previous value. -/
def rep1 : SprintReport :=
  { user_id := 7, employee_name := "User Seven", sprint_name := "Sprint 1"
    sprint_start_date := ⟨19795⟩, sprint_end_date := ⟨19809⟩
    story_points_closed := { current := 5 }
    tasks_completed := { current := 1 }
    deadlines_missed := { current := 0 }
    average_task_completion_time := { current := 4 }
    activity_analysis := "steady sprint"
    recommendations := [rec1] }

/-! ## Theorems -/

/-- Helper: the current field of a metric comparison is the current value fed
to it, whatever the previous value. -/
theorem create_metric_comparison_current (v : ℚ) (p : Option ℚ) :
    (create_metric_comparison v p).current = v := by
  cases p <;> rfl

/-- C6: for every (current, previous) pair, _create_metric_comparison is total
(pure, no exception) and returns: previous and change_percent both none when
previous is none; change_percent 100 when previous is 0 and current positive;
change_percent 0 when previous and current are both 0; otherwise change
percent (current - previous) / previous * 100 together with the previous
value. -/
theorem create_metric_comparison_cases (current : ℚ) (previous : Option ℚ) :
    (create_metric_comparison current previous).current = current ∧
    (previous = none →
      create_metric_comparison current previous =
        { current := current, previous := none, change_percent := none }) ∧
    (previous = some 0 → 0 < current →
      (create_metric_comparison current previous).change_percent = some 100) ∧
    (previous = some 0 → current = 0 →
      (create_metric_comparison current previous).change_percent = some 0) ∧
    (∀ p : ℚ, previous = some p → p ≠ 0 →
      (create_metric_comparison current previous).previous = some p ∧
      (create_metric_comparison current previous).change_percent =
        some ((current - p) / p * 100)) := by
  refine ⟨create_metric_comparison_current current previous, ?_, ?_, ?_, ?_⟩
  · intro h; subst h; rfl
  · intro h hc; subst h
    simp [create_metric_comparison, calculate_percent_change, hc]
  · intro h hc; subst h
    simp [create_metric_comparison, calculate_percent_change, hc]
  · intro p h hp; subst h
    exact ⟨rfl, by simp [create_metric_comparison, calculate_percent_change, hp]⟩

/-- Witness for C6 at concrete inputs. -/
theorem create_metric_comparison_cases_witness :
    (create_metric_comparison 7 none =
      { current := 7, previous := none, change_percent := none }) ∧
    (create_metric_comparison 5 (some 0)).change_percent = some 100 ∧
    (create_metric_comparison 0 (some 0)).change_percent = some 0 ∧
    (create_metric_comparison 3 (some 2)).change_percent = some 50 := by
  refine ⟨(create_metric_comparison_cases 7 none).2.1 rfl,
    (create_metric_comparison_cases 5 (some 0)).2.2.1 rfl (by norm_num),
    (create_metric_comparison_cases 0 (some 0)).2.2.2.1 rfl rfl, ?_⟩
  have h := ((create_metric_comparison_cases 3 (some 2)).2.2.2.2 2 rfl (by norm_num)).2
  rw [h]; norm_num

/-- C5 (code bug): on the boundary input the claim speaks about, a done task
whose resolution falls on the day of its deadline, _process_tasks does not
decide the strict comparison at all: Python compares the date typed deadline
with the datetime typed resolved_at, which raises TypeError, so the
aggregation raises instead of counting or not counting the task. -/
theorem process_tasks_boundary_raises :
    process_tasks (fun _ => 0) ⟨19800⟩ [task_resolved_on_deadline] =
      (Except.error Err.typeError, 0) := rfl

/-- C10: the deadline miss check of _process_tasks evaluates the comparison
deadline < resolved_at for every task that has a deadline and status key done,
and that comparison raises TypeError; consequently there are task lists, for
example one holding a done task with a deadline and resolved_at None, on which
_process_tasks raises instead of returning SprintStats. -/
theorem process_tasks_partiality :
    (∀ (today : Date) (t : Task) (d : Date), t.deadline = some d →
      t.status.key = "done" →
      deadline_missed_check today t = Except.error Err.typeError) ∧
    process_tasks (fun _ => 0) ⟨19800⟩ [task_done_unresolved] =
      (Except.error Err.typeError, 0) := by
  refine ⟨?_, rfl⟩
  intro today t d hd hk
  simp [deadline_missed_check, hd, hk, pyLt_deadline_resolved]

/-- Witness for C10 at a concrete task. -/
theorem process_tasks_partiality_witness :
    deadline_missed_check ⟨19800⟩ task_done_unresolved = Except.error Err.typeError :=
  process_tasks_partiality.1 ⟨19800⟩ task_done_unresolved ⟨19790⟩ rfl rfl

/-- Helper: full characterization of the aggregation loop on lists in which no
done task has a deadline (so that the deadline check never reaches the raising
comparison). The accumulated totals and logged-time call count are threaded
explicitly. -/
theorem process_tasks_go_total (lookup : String → ℚ) (today : Date) :
    ∀ (ts : List Task) (sp n missed time : ℚ) (calls : Nat),
      (∀ t ∈ ts, t.status.key = "done" → t.deadline = none) →
      ∃ sp' missed' : ℚ,
        process_tasks_go lookup today ts sp n missed time calls =
          (Except.ok
            { total_story_points := sp'
              total_tasks := n + (ts.length : ℚ)
              deadlines_missed := missed'
              average_completion_time :=
                if n + (ts.length : ℚ) > 0 then
                  (time + done_logged_sum lookup ts) / (n + (ts.length : ℚ))
                else 0 },
            calls + done_count ts) := by
  intro ts
  induction ts with
  | nil =>
    intro sp n missed time calls _h
    refine ⟨sp, missed, ?_⟩
    simp [process_tasks_go, done_logged_sum, done_count]
  | cons t ts ih =>
    intro sp n missed time calls h
    have ht := h t (by simp)
    have hts : ∀ t ∈ ts, t.status.key = "done" → t.deadline = none := by
      intro x hx; exact h x (by simp [hx])
    have hlen : (((t :: ts).length : Nat) : ℚ) = (ts.length : ℚ) + 1 := by
      simp [List.length_cons]
    by_cases hk : t.status.key = "done"
    · have hd : t.deadline = none := ht hk
      obtain ⟨sp', missed', hrec⟩ :=
        ih (sp + ((t.story_points.getD 0 : Int) : ℚ)) (n + 1) missed
          (time + lookup t.id) (calls + 1) hts
      refine ⟨sp', missed', ?_⟩
      have hstep : process_tasks_go lookup today (t :: ts) sp n missed time calls =
          process_tasks_go lookup today ts (sp + ((t.story_points.getD 0 : Int) : ℚ))
            (n + 1) missed (time + lookup t.id) (calls + 1) := by
        simp only [process_tasks_go, deadline_missed_check, hd, hk, if_true,
          Bool.false_eq_true, if_false]
      rw [hstep, hrec]
      have h1 : n + 1 + (ts.length : ℚ) = n + (((t :: ts).length : Nat) : ℚ) := by
        rw [hlen]; ring
      have h2 : time + lookup t.id + done_logged_sum lookup ts =
          time + done_logged_sum lookup (t :: ts) := by
        simp only [done_logged_sum, hk, if_true]; ring
      have h3 : calls + 1 + done_count ts = calls + done_count (t :: ts) := by
        simp only [done_count, hk, if_true]; omega
      rw [h1, h2, h3]
    · have hcheck : deadline_missed_check today t =
          Except.ok (match t.deadline with
            | none => false
            | some d => dateLt d today) := by
        unfold deadline_missed_check
        cases t.deadline <;> simp [hk]
      obtain ⟨sp', missed', hrec⟩ :=
        ih (sp + ((t.story_points.getD 0 : Int) : ℚ)) (n + 1)
          (if (match t.deadline with
            | none => false
            | some d => dateLt d today) then missed + 1 else missed)
          time calls hts
      refine ⟨sp', missed', ?_⟩
      have hstep : process_tasks_go lookup today (t :: ts) sp n missed time calls =
          process_tasks_go lookup today ts (sp + ((t.story_points.getD 0 : Int) : ℚ))
            (n + 1)
            (if (match t.deadline with
              | none => false
              | some d => dateLt d today) then missed + 1 else missed)
            time calls := by
        simp only [process_tasks_go, hcheck, hk, if_false]
      rw [hstep, hrec]
      have h1 : n + 1 + (ts.length : ℚ) = n + (((t :: ts).length : Nat) : ℚ) := by
        rw [hlen]; ring
      have h2 : time + done_logged_sum lookup ts =
          time + done_logged_sum lookup (t :: ts) := by
        simp only [done_logged_sum, hk, if_false]; ring
      have h3 : calls + done_count ts = calls + done_count (t :: ts) := by
        simp only [done_count, hk, if_false]; omega
      rw [h1, h2, h3]

/-- C7 (amended): for every task list in which no done task carries a deadline
(on other lists the aggregation raises TypeError before reaching the
average), _process_tasks succeeds and its average_completion_time equals the
sum of logged hours over the done tasks divided by total_tasks when
total_tasks is positive, and 0 when the list is empty — no division by zero
error. -/
theorem process_tasks_average_spec (lookup : String → ℚ) (today : Date)
    (tasks : List Task)
    (h : ∀ t ∈ tasks, t.status.key = "done" → t.deadline = none) :
    ∃ (stats : SprintStats) (calls : Nat),
      process_tasks lookup today tasks = (Except.ok stats, calls) ∧
      stats.total_tasks = (tasks.length : ℚ) ∧
      stats.average_completion_time =
        (if (tasks.length : ℚ) > 0 then
          done_logged_sum lookup tasks / (tasks.length : ℚ)
        else 0) := by
  obtain ⟨sp', missed', hgo⟩ := process_tasks_go_total lookup today tasks 0 0 0 0 0 h
  refine ⟨{ total_story_points := sp'
            total_tasks := 0 + (tasks.length : ℚ)
            deadlines_missed := missed'
            average_completion_time :=
              if 0 + (tasks.length : ℚ) > 0 then
                (0 + done_logged_sum lookup tasks) / (0 + (tasks.length : ℚ))
              else 0 },
    0 + done_count tasks, ?_, by simp, by simp⟩
  unfold process_tasks
  exact hgo

/-- Witness for C7 on a concrete two-task list: the average is the logged
hours of the single done task divided by two tasks. -/
theorem process_tasks_average_spec_witness :
    ∃ (stats : SprintStats) (calls : Nat),
      process_tasks (fun _ => 4) ⟨19800⟩ c7_tasks = (Except.ok stats, calls) ∧
      stats.total_tasks = (c7_tasks.length : ℚ) ∧
      stats.average_completion_time =
        (if (c7_tasks.length : ℚ) > 0 then
          done_logged_sum (fun _ => 4) c7_tasks / (c7_tasks.length : ℚ)
        else 0) :=
  process_tasks_average_spec (fun _ => 4) ⟨19800⟩ c7_tasks (by decide)

/-- Counterexample for C7 as stated: on the task list holding one done task
with a deadline, _process_tasks raises TypeError, so its
average_completion_time does not equal any value at all. -/
theorem process_tasks_average_counterexample :
    process_tasks (fun _ => 4) ⟨19800⟩ [task_done_late] =
      (Except.error Err.typeError, 0) := rfl

/-- C4: every failure mode of _call_llm_structured — an SDK or transport
exception, a response that is not a GPTModelResult, an empty or missing
alternatives list, an invalid or empty alternative, a non JSON payload, a
schema validation failure — surfaces as the single ConnectionError failure
kind; a value is returned only for a fully validated payload, so no failure
mode is silently defaulted; and the response schema accepts exactly the
integer ratings in [1,5], passing the JSON value through unclamped and
rejecting any rating outside the range. -/
theorem call_llm_structured_error_contract :
    (∀ msg, ∃ emsg, call_llm_structured_team (SdkResult.sdkException msg) =
      Except.error (LLMError.connectionError emsg)) ∧
    (∃ emsg, call_llm_structured_team SdkResult.notGPTModelResult =
      Except.error (LLMError.connectionError emsg)) ∧
    (∃ emsg, call_llm_structured_team (SdkResult.gptResult []) =
      Except.error (LLMError.connectionError emsg)) ∧
    (∀ rest, ∃ emsg, call_llm_structured_team
        (SdkResult.gptResult (SdkAlternative.notAlternative :: rest)) =
      Except.error (LLMError.connectionError emsg)) ∧
    (∀ rest, ∃ emsg, call_llm_structured_team
        (SdkResult.gptResult (SdkAlternative.alternative none :: rest)) =
      Except.error (LLMError.connectionError emsg)) ∧
    (∀ raw rest, ∃ emsg, call_llm_structured_team
        (SdkResult.gptResult
          (SdkAlternative.alternative (some (Payload.notJson raw)) :: rest)) =
      Except.error (LLMError.connectionError emsg)) ∧
    (∀ j rest err, parse_team_rating_list j = Except.error err →
      ∃ emsg, call_llm_structured_team
          (SdkResult.gptResult
            (SdkAlternative.alternative (some (Payload.json j)) :: rest)) =
        Except.error (LLMError.connectionError emsg)) ∧
    (∀ r v, call_llm_structured_team r = Except.ok v →
      ∃ j rest, r = SdkResult.gptResult
          (SdkAlternative.alternative (some (Payload.json j)) :: rest) ∧
        parse_team_rating_list j = Except.ok v) ∧
    (∀ j item, parse_team_rating_item j = Except.ok item →
      1 ≤ item.rating ∧ item.rating ≤ 5) ∧
    (∀ j item, parse_team_rating_item j = Except.ok item →
      ∃ fields, j = Json.obj fields ∧
        json_lookup fields "rating" = some (Json.num item.rating)) ∧
    (∀ fields (n : Int), json_lookup fields "rating" = some (Json.num n) →
      (n < 1 ∨ 5 < n) →
      ∀ item, parse_team_rating_item (Json.obj fields) ≠ Except.ok item) := by
  have hbounds : ∀ j item, parse_team_rating_item j = Except.ok item →
      1 ≤ item.rating ∧ item.rating ≤ 5 := by
    intro j item h
    unfold parse_team_rating_item at h
    split at h
    · split at h
      · split at h
        · cases h
          assumption
        · exact absurd h (by simp)
      · exact absurd h (by simp)
    · exact absurd h (by simp)
  have hident : ∀ j item, parse_team_rating_item j = Except.ok item →
      ∃ fields, j = Json.obj fields ∧
        json_lookup fields "rating" = some (Json.num item.rating) := by
    intro j item h
    unfold parse_team_rating_item at h
    split at h
    case h_2 => exact absurd h (by simp)
    case h_1 fields =>
      split at h
      case h_2 => exact absurd h (by simp)
      case h_1 eid r expl h1 h2 h3 =>
        split at h
        · cases h
          exact ⟨fields, rfl, h2⟩
        · exact absurd h (by simp)
  refine ⟨fun msg => ⟨_, rfl⟩, ⟨_, rfl⟩, ⟨_, rfl⟩, fun rest => ⟨_, rfl⟩,
    fun rest => ⟨_, rfl⟩, fun raw rest => ⟨_, rfl⟩, ?_, ?_, hbounds, hident, ?_⟩
  · intro j rest err hp
    exact ⟨"LLM response failed validation for TeamRatingList",
      by simp only [call_llm_structured_team, hp]⟩
  · intro r v h
    cases r with
    | sdkException msg => simp [call_llm_structured_team] at h
    | notGPTModelResult => simp [call_llm_structured_team] at h
    | gptResult alts =>
      cases alts with
      | nil => simp [call_llm_structured_team] at h
      | cons alt rest =>
        cases alt with
        | notAlternative => simp [call_llm_structured_team] at h
        | alternative txt =>
          cases txt with
          | none => simp [call_llm_structured_team] at h
          | some p =>
            cases p with
            | notJson raw => simp [call_llm_structured_team] at h
            | json j =>
              refine ⟨j, rest, rfl, ?_⟩
              cases hp : parse_team_rating_list j with
              | error e =>
                simp only [call_llm_structured_team, hp] at h
                exact absurd h (by simp)
              | ok w =>
                simp only [call_llm_structured_team, hp] at h
                cases h
                rfl
  · intro fields n hl hrange item h
    obtain ⟨h1, h5⟩ := hbounds _ _ h
    obtain ⟨fields2, hfe, hlk⟩ := hident _ _ h
    cases hfe
    rw [hl] at hlk
    have : n = item.rating := by
      cases hlk
      rfl
    omega

/-- Witness for C4: a concrete in range rating validates to itself and a
concrete out of range rating is rejected. -/
theorem call_llm_structured_error_contract_witness :
    (1 ≤ c4_rating_item.rating ∧ c4_rating_item.rating ≤ 5) ∧
    parse_team_rating_item (Json.obj c4_bad_fields) ≠ Except.ok c4_rating_item :=
  ⟨call_llm_structured_error_contract.2.2.2.2.2.2.2.2.1 c4_rating_json
      c4_rating_item rfl,
    call_llm_structured_error_contract.2.2.2.2.2.2.2.2.2.2 c4_bad_fields 9 rfl
      (Or.inr (by norm_num)) c4_rating_item⟩

/-- Helper: when no row with the key of the new row exists, the upsert
appends the new row. -/
theorem save_or_update_of_none (s : Store) (row : SprintReportDB)
    (h : get_sprint_report_by_id s row.user_id row.tracker_id row.sprint_id = none) :
    save_or_update_sprint_report s row = s ++ [row] := by
  unfold save_or_update_sprint_report
  rw [if_neg]
  intro hany
  rw [List.any_eq_true] at hany
  obtain ⟨r, hr, hp⟩ := hany
  unfold get_sprint_report_by_id at h
  rw [List.find?_eq_none] at h
  exact h r hr hp

/-- Helper: the appended row is found by the key lookup when no row with its
key was present before. -/
theorem get_append_self (s : Store) (row : SprintReportDB)
    (h : get_sprint_report_by_id s row.user_id row.tracker_id row.sprint_id = none) :
    get_sprint_report_by_id (s ++ [row]) row.user_id row.tracker_id row.sprint_id =
      some row := by
  unfold get_sprint_report_by_id at h ⊢
  rw [List.find?_append, h]
  simp [same_report_key]

/-- Helper: appending a row whose start date is not strictly before the
queried date leaves the previous report lookup unchanged. -/
theorem get_previous_append (s : Store) (row : SprintReportDB) (u t : Int)
    (d : Date) (h : ¬ row.sprint_start_date.days < d.days) :
    get_previous_sprint_report (s ++ [row]) u t d =
      get_previous_sprint_report s u t d := by
  unfold get_previous_sprint_report
  rw [List.filter_append, List.filter_singleton]
  have hdec : decide (row.user_id = u ∧ row.tracker_id = t ∧
      row.sprint_start_date.days < d.days) = false := by
    simp [h]
  rw [hdec, cond_false, List.append_nil]

/-- Helper: appending with a start date equal to the queried date leaves the
comparison building step unchanged, since the previous lookup is strict. -/
theorem build_comparisons_append (s : Store) (row : SprintReportDB) (u t : Int)
    (d : Date) (h : ¬ row.sprint_start_date.days < d.days) (stats : SprintStats) :
    build_comparisons (s ++ [row]) u t d stats = build_comparisons s u t d stats := by
  unfold build_comparisons
  rw [get_previous_append s row u t d h]

/-- C2 (amended): when a stored report exists for (user, tracker, sprint) and
the steps before the cache lookup succeed, generate_sprint_report returns the
stored report rebuilt with comparison metrics recomputed against the previous
stored report, makes zero LLM calls and leaves the store unchanged — but it
still performs the tracker gateway calls (one get_sprint, one
get_sprint_tasks, and one get_issue_logged_time per done task), because the
source consults the cache only after fetching the sprint, the tasks and the
logged times. -/
theorem cache_hit_short_circuits_llm (env : Env) (store : Store) (user : User)
    (sprint_id tracker_id : Int) (role : String) (sprint : Sprint)
    (sprint_stats : SprintStats) (lc : Nat) (existing : SprintReportDB)
    (h1 : env.get_sprint sprint_id = some sprint)
    (h2 : env.tracker_of user.id = some (tracker_id, role))
    (h3 : process_tasks env.get_issue_logged_time env.today
      (env.get_sprint_tasks sprint_id user.login) = (Except.ok sprint_stats, lc))
    (h4 : get_sprint_report_by_id store user.id tracker_id sprint_id = some existing) :
    generate_sprint_report env store user sprint_id =
      ⟨Except.ok (build_report_from_existing store user tracker_id existing),
        store,
        { get_sprint := 1, get_sprints := 0, get_sprint_tasks := 1,
          get_issue_logged_time := lc, llm := 0 }⟩ := by
  simp only [generate_sprint_report, h1, h2, h3, h4]

/-- Witness for C2 (amended) at a concrete cached key. -/
theorem cache_hit_short_circuits_llm_witness :
    generate_sprint_report env_base [row_cached] user7 1 =
      ⟨Except.ok (build_report_from_existing [row_cached] user7 5 row_cached),
        [row_cached],
        { get_sprint := 1, get_sprints := 0, get_sprint_tasks := 1,
          get_issue_logged_time := 1, llm := 0 }⟩ :=
  cache_hit_short_circuits_llm env_base [row_cached] user7 1 5 "employee" sprint1
    { total_story_points := 5, total_tasks := 1, deadlines_missed := 0,
      average_completion_time := 4 }
    1 row_cached rfl rfl
    (by norm_num [process_tasks, process_tasks_go, deadline_missed_check,
      task_done_plain, env_base, user7])
    rfl

/-- Counterexample for C2 as stated: with the report for (user 7, tracker 5,
sprint 1) already in the store, the run still makes one get_sprint call, one
get_sprint_tasks call and one get_issue_logged_time call. -/
theorem cache_hit_counterexample :
    get_sprint_report_by_id [row_cached] 7 5 1 = some row_cached ∧
    (generate_sprint_report env_base [row_cached] user7 1).calls =
      { get_sprint := 1, get_sprints := 0, get_sprint_tasks := 1,
        get_issue_logged_time := 1, llm := 0 } :=
  ⟨rfl, rfl⟩

/-- C3: in any run of generate_sprint_report that reaches the LLM stage (the
prelude succeeded and the cache missed) in which an LLM call fails — the
activity analysis call, or the recommendations call after a successful
analysis — the run fails with the ConnectionError kind (surfaced as service
unavailable) and nothing is persisted: the store is unchanged and a
subsequent lookup for the key still returns nothing. -/
theorem llm_failure_no_persist (env : Env) (store : Store) (user : User)
    (sprint_id tracker_id : Int) (role : String) (sprint : Sprint)
    (sprint_stats : SprintStats) (lc : Nat)
    (h1 : env.get_sprint sprint_id = some sprint)
    (h2 : env.tracker_of user.id = some (tracker_id, role))
    (h3 : process_tasks env.get_issue_logged_time env.today
      (env.get_sprint_tasks sprint_id user.login) = (Except.ok sprint_stats, lc))
    (h4 : get_sprint_report_by_id store user.id tracker_id sprint_id = none)
    (h5 : env.analyze_employee_activity = Except.error () ∨
      env.generate_employee_recommendations = Except.error ()) :
    (generate_sprint_report env store user sprint_id).result =
      Except.error Err.serviceUnavailable ∧
    (generate_sprint_report env store user sprint_id).store = store ∧
    get_sprint_report_by_id (generate_sprint_report env store user sprint_id).store
      user.id tracker_id sprint_id = none := by
  have hgen : generate_sprint_report env store user sprint_id =
      fresh_generate env store user sprint_id sprint tracker_id sprint_stats
        { get_sprint := 1, get_sprint_tasks := 1, get_issue_logged_time := lc } := by
    simp only [generate_sprint_report, h1, h2, h3, h4]
  rw [hgen]
  rcases h5 with h5 | h5
  · simp [fresh_generate, h5, h4]
  · cases ha : env.analyze_employee_activity with
    | error e => simp [fresh_generate, ha, h4]
    | ok a => simp [fresh_generate, ha, h5, h4]

/-- Witness for C3: with a failing activity analysis call and an empty store,
the concrete run fails with the service unavailable kind and the lookup for
the key still returns nothing afterwards. -/
theorem llm_failure_no_persist_witness :
    (generate_sprint_report env_fail [] user7 1).result =
      Except.error Err.serviceUnavailable ∧
    (generate_sprint_report env_fail [] user7 1).store = [] ∧
    get_sprint_report_by_id (generate_sprint_report env_fail [] user7 1).store
      user7.id 5 1 = none :=
  llm_failure_no_persist env_fail [] user7 1 5 "employee" sprint1
    { total_story_points := 5, total_tasks := 1, deadlines_missed := 0,
      average_completion_time := 4 }
    1 rfl rfl
    (by norm_num [process_tasks, process_tasks_go, deadline_missed_check,
      task_done_plain, env_fail, env_base, user7])
    rfl (Or.inl rfl)

/-- Helper: reading the freshly persisted row back through stats_of_report
recovers the stats it was built from, because the repository stores the
current field of each comparison and that field is the current value fed to
_create_metric_comparison. -/
theorem stats_of_fresh_row (store : Store) (user : User)
    (tracker_id sprint_id : Int) (sprint : Sprint) (stats : SprintStats)
    (activity : String) (recs : List Recommendation) :
    stats_of_report (fresh_row user tracker_id sprint_id sprint
      (build_comparisons store user.id tracker_id sprint.start_date stats)
      activity recs) = stats := by
  unfold stats_of_report fresh_row build_comparisons
  cases stats
  simp [create_metric_comparison_current]

/-- Helper: rebuilding from the row just persisted by the fresh path, over the
store extended with exactly that row, yields the very report the fresh path
returned: the previous report lookup ignores the new row (its start date is
not strictly before itself) and the stored currents regenerate the same
comparisons. -/
theorem build_from_fresh_row (store : Store) (user : User)
    (tracker_id sprint_id : Int) (sprint : Sprint) (stats : SprintStats)
    (activity : String) (recs : List Recommendation) :
    build_report_from_existing
      (store ++ [fresh_row user tracker_id sprint_id sprint
        (build_comparisons store user.id tracker_id sprint.start_date stats)
        activity recs])
      user tracker_id
      (fresh_row user tracker_id sprint_id sprint
        (build_comparisons store user.id tracker_id sprint.start_date stats)
        activity recs) =
    fresh_report user sprint
      (build_comparisons store user.id tracker_id sprint.start_date stats)
      activity recs := by
  unfold build_report_from_existing
  rw [show (fresh_row user tracker_id sprint_id sprint
      (build_comparisons store user.id tracker_id sprint.start_date stats)
      activity recs).sprint_start_date = sprint.start_date from rfl]
  rw [stats_of_fresh_row]
  rw [build_comparisons_append store
    (fresh_row user tracker_id sprint_id sprint
      (build_comparisons store user.id tracker_id sprint.start_date stats)
      activity recs)
    user.id tracker_id sprint.start_date (by exact lt_irrefl _) stats]
  rfl

/-- C1 (amended): when a run of generate_sprint_report for a key succeeds, a
second run with the same key and no intervening store mutation returns
exactly the same report content and makes zero LLM calls (cache hit); across
the two runs each LLM operation is invoked at most once, the first run making
at most two LLM invocations (activity analysis and recommendations) and the
second none. The original cap of at most one LLM invocation across both runs
fails: a cache missing first run already makes two (see the
counterexample). -/
theorem generate_sprint_report_idempotent (env : Env) (store : Store)
    (user : User) (sprint_id : Int) (rep : SprintReport)
    (h : (generate_sprint_report env store user sprint_id).result = Except.ok rep) :
    (generate_sprint_report env
      (generate_sprint_report env store user sprint_id).store user sprint_id).result =
      Except.ok rep ∧
    (generate_sprint_report env
      (generate_sprint_report env store user sprint_id).store user sprint_id).calls.llm
      = 0 ∧
    (generate_sprint_report env store user sprint_id).calls.llm ≤ 2 := by
  cases h1 : env.get_sprint sprint_id with
  | none =>
    simp only [generate_sprint_report, h1] at h
    exact absurd h (by simp)
  | some sprint =>
  cases h2 : env.tracker_of user.id with
  | none =>
    simp only [generate_sprint_report, h1, h2] at h
    exact absurd h (by simp)
  | some tr =>
  obtain ⟨tracker_id, role⟩ := tr
  rcases h3 : process_tasks env.get_issue_logged_time env.today
    (env.get_sprint_tasks sprint_id user.login) with ⟨res, lc⟩
  cases res with
  | error e =>
    simp only [generate_sprint_report, h1, h2, h3] at h
    exact absurd h (by simp)
  | ok sprint_stats =>
  cases h4 : get_sprint_report_by_id store user.id tracker_id sprint_id with
  | some existing =>
    have hrun : generate_sprint_report env store user sprint_id =
        ⟨Except.ok (build_report_from_existing store user tracker_id existing),
          store,
          { get_sprint := 1, get_sprint_tasks := 1, get_issue_logged_time := lc }⟩ := by
      simp only [generate_sprint_report, h1, h2, h3, h4]
    have hrep : build_report_from_existing store user tracker_id existing = rep := by
      rw [hrun] at h
      simpa using h
    have hstore : (generate_sprint_report env store user sprint_id).store = store := by
      rw [hrun]
    refine ⟨?_, ?_, ?_⟩
    · rw [hstore, hrun, ← hrep]
    · rw [hstore, hrun]
    · rw [hrun]
      exact Nat.zero_le 2
  | none =>
    cases h5 : env.analyze_employee_activity with
    | error e =>
      simp only [generate_sprint_report, h1, h2, h3, h4, fresh_generate, h5] at h
      exact absurd h (by simp)
    | ok activity =>
    cases h6 : env.generate_employee_recommendations with
    | error e =>
      simp only [generate_sprint_report, h1, h2, h3, h4, fresh_generate, h5, h6] at h
      exact absurd h (by simp)
    | ok recs =>
    have hrun : generate_sprint_report env store user sprint_id =
        ⟨Except.ok (fresh_report user sprint
            (build_comparisons store user.id tracker_id sprint.start_date sprint_stats)
            activity recs),
          save_or_update_sprint_report store
            (fresh_row user tracker_id sprint_id sprint
              (build_comparisons store user.id tracker_id sprint.start_date sprint_stats)
              activity recs),
          { get_sprint := 1, get_sprint_tasks := 1, get_issue_logged_time := lc,
            llm := 2 }⟩ := by
      simp only [generate_sprint_report, h1, h2, h3, h4, fresh_generate, h5, h6,
        Nat.zero_add]
    have hrep : fresh_report user sprint
        (build_comparisons store user.id tracker_id sprint.start_date sprint_stats)
        activity recs = rep := by
      rw [hrun] at h
      simpa using h
    have hkey : get_sprint_report_by_id store
        (fresh_row user tracker_id sprint_id sprint
          (build_comparisons store user.id tracker_id sprint.start_date sprint_stats)
          activity recs).user_id
        (fresh_row user tracker_id sprint_id sprint
          (build_comparisons store user.id tracker_id sprint.start_date sprint_stats)
          activity recs).tracker_id
        (fresh_row user tracker_id sprint_id sprint
          (build_comparisons store user.id tracker_id sprint.start_date sprint_stats)
          activity recs).sprint_id = none := h4
    have hstore : (generate_sprint_report env store user sprint_id).store =
        store ++ [fresh_row user tracker_id sprint_id sprint
          (build_comparisons store user.id tracker_id sprint.start_date sprint_stats)
          activity recs] := by
      rw [hrun]
      exact save_or_update_of_none store _ hkey
    have hfound : get_sprint_report_by_id
        (store ++ [fresh_row user tracker_id sprint_id sprint
          (build_comparisons store user.id tracker_id sprint.start_date sprint_stats)
          activity recs])
        user.id tracker_id sprint_id =
        some (fresh_row user tracker_id sprint_id sprint
          (build_comparisons store user.id tracker_id sprint.start_date sprint_stats)
          activity recs) :=
      get_append_self store _ hkey
    have hrun2 : generate_sprint_report env
        (store ++ [fresh_row user tracker_id sprint_id sprint
          (build_comparisons store user.id tracker_id sprint.start_date sprint_stats)
          activity recs]) user sprint_id =
        ⟨Except.ok (build_report_from_existing
            (store ++ [fresh_row user tracker_id sprint_id sprint
              (build_comparisons store user.id tracker_id sprint.start_date sprint_stats)
              activity recs])
            user tracker_id
            (fresh_row user tracker_id sprint_id sprint
              (build_comparisons store user.id tracker_id sprint.start_date sprint_stats)
              activity recs)),
          store ++ [fresh_row user tracker_id sprint_id sprint
            (build_comparisons store user.id tracker_id sprint.start_date sprint_stats)
            activity recs],
          { get_sprint := 1, get_sprint_tasks := 1, get_issue_logged_time := lc }⟩ := by
      simp only [generate_sprint_report, h1, h2, h3, hfound]
    refine ⟨?_, ?_, ?_⟩
    · rw [hstore, hrun2]
      show Except.ok (build_report_from_existing _ _ _ _) = Except.ok rep
      rw [build_from_fresh_row, hrep]
    · rw [hstore, hrun2]
    · rw [hrun]

/-- Witness for C1 (amended): in env_base from an empty store, the first run
produces rep1; the second run returns rep1 again with zero LLM calls, and the
first run made at most two. -/
theorem generate_sprint_report_idempotent_witness :
    (generate_sprint_report env_base
      (generate_sprint_report env_base [] user7 1).store user7 1).result =
      Except.ok rep1 ∧
    (generate_sprint_report env_base
      (generate_sprint_report env_base [] user7 1).store user7 1).calls.llm = 0 ∧
    (generate_sprint_report env_base [] user7 1).calls.llm ≤ 2 :=
  generate_sprint_report_idempotent env_base [] user7 1 rep1
    (by norm_num [generate_sprint_report, fresh_generate, fresh_report,
      build_comparisons, get_previous_sprint_report, get_sprint_report_by_id,
      create_metric_comparison, process_tasks, process_tasks_go,
      deadline_missed_check, env_base, user7, sprint1, task_done_plain, rep1])

/-- Counterexample for C1 as stated: across the two runs of the witness
scenario the LLM gateway is invoked twice (activity analysis and
recommendations, both during the first run), which exceeds the claimed cap of
one invocation across both runs. -/
theorem generate_sprint_report_llm_twice :
    (generate_sprint_report env_base [] user7 1).calls.llm +
      (generate_sprint_report env_base
        (generate_sprint_report env_base [] user7 1).store user7 1).calls.llm = 2 ∧
    ¬ ((generate_sprint_report env_base [] user7 1).calls.llm +
      (generate_sprint_report env_base
        (generate_sprint_report env_base [] user7 1).store user7 1).calls.llm ≤ 1) := by
  have h : (generate_sprint_report env_base [] user7 1).calls.llm +
      (generate_sprint_report env_base
        (generate_sprint_report env_base [] user7 1).store user7 1).calls.llm = 2 := rfl
  exact ⟨h, by rw [h]; norm_num⟩

/-- C8: for every requester whose current tracker role is not manager,
generate_team_sprint_report fails with the permission denied kind before
anything else happens: the stores are untouched and every gateway call count
— get_sprint, get_sprints, get_sprint_tasks, get_issue_logged_time and LLM —
is zero, since the role check precedes the team cache lookup, the sprint
fetch, the per employee task fetches and the rating call. -/
theorem team_report_role_gate (env : Env) (store : Store)
    (team_store : TeamStore) (current_user_id sprint_id tracker_id : Int)
    (role : String)
    (h1 : env.tracker_of current_user_id = some (tracker_id, role))
    (h2 : role ≠ "manager") :
    generate_team_sprint_report env store team_store current_user_id sprint_id =
      ⟨Except.error Err.permissionDenied, store, team_store, {}⟩ := by
  simp only [generate_team_sprint_report, h1, if_neg h2]

/-- Witness for C8: user 7 is an employee, not a manager, of tracker 5. -/
theorem team_report_role_gate_witness :
    generate_team_sprint_report env_base [] [] 7 1 =
      ⟨Except.error Err.permissionDenied, [], [], {}⟩ :=
  team_report_role_gate env_base [] [] 7 1 5 "employee" rfl (by decide)

/-- C9 (code bug evaluation): with a manager requester, one employee, and an
LLM rating response that does not mention the employee, the final employee
stats persisted in the team store carry the default rating 3 and the fixed
fallback explanation — the missing rating causes no failure there — but the
run as a whole does not succeed: constructing the TeamSprintReport response
raises ValidationError because the schema requires fields the service never
passes. -/
theorem team_rating_default_and_validation_bug :
    (generate_team_sprint_report env_base [] [] 9 1).team_store =
      [team_row_expected] ∧
    (generate_team_sprint_report env_base [] [] 9 1).result =
      Except.error Err.validationError := by
  constructor
  · norm_num [generate_team_sprint_report, team_collect, team_row_expected,
      save_or_update_team_sprint_report, get_team_sprint_report_by_id,
      build_employee_stats_final, rating_map_get, entry_of_report,
      find_prev_sprint, sort_by_start, insert_by_start, prev_sprint_scan,
      generate_sprint_report, fresh_generate, fresh_report, fresh_row,
      build_comparisons, get_previous_sprint_report, get_sprint_report_by_id,
      create_metric_comparison, process_tasks, process_tasks_go,
      deadline_missed_check, env_base, user7, sprint1, task_done_plain, rec1]
    rfl
  · rfl

end PF
